import Mathlib

/-!
Verification development for the sharktoffel REST-API client core
(`src/pym/stof/restapi/_abc.py`, `src/pym/stof/restapi/client.py`,
`src/pym/stof/restapi/exc.py`).

The Python code is shallowly embedded: pure string manipulation becomes
Lean functions on `String`/`List Char`; Python exceptions become
`Option`/`Except` results; the stateful client object becomes an explicit
`Client` record threaded through the lifecycle operations.  Abstract
methods (`login`, `logout`) are function parameters.
-/

/-! ## String helpers (embedding Python str operations) -/

/-- Split a character list at the FIRST occurrence of `sep`:
returns `(before, after)` without the separator, or `none` if absent.
Embeds the search done by `str.find` in `urllib.parse.urlsplit`. -/
def splitAtFirst (sep : Char) : List Char → Option (List Char × List Char)
  | [] => none
  | c :: rest =>
    if c = sep then some ([], rest)
    else (splitAtFirst sep rest).map (fun p => (c :: p.1, p.2))

/-- Split a character list at the LAST occurrence of `sep`.
Returns `(before, after)` or `none` if `sep` is absent. -/
def rpartCharList (sep : Char) : List Char → Option (List Char × List Char)
  | [] => none
  | c :: rest =>
    match rpartCharList sep rest with
    | some p => some (c :: p.1, p.2)
    | none => if c = sep then some ([], rest) else none

/-- Embeds Python `s.rpartition(sep)` for a one-character separator:
`(head, sep, tail)` at the last occurrence, or `("", "", s)` when the
separator does not occur. -/
def rpartition (s : String) (sep : Char) : String × String × String :=
  match rpartCharList sep s.data with
  | some p => (String.mk p.1, String.mk [sep], String.mk p.2)
  | none => ("", "", s)

/-- Embeds Python `s.lstrip("/")`: drop all leading slash characters. -/
def lstripSlash (s : String) : String :=
  String.mk (s.data.dropWhile (fun c => c == '/'))

/-! ## urllib.parse scheme/netloc extraction

`AbstractAPIClient.parse_api_host_arg` only consults `parts.scheme` and
`parts.netloc` (and, in the complete-URL branch, `parts.netloc` itself),
so the embedding models exactly the scheme and netloc extraction of
`urllib.parse.urlsplit`: the scheme is the text before the first `:`
when it starts with an ASCII letter and consists of scheme characters;
the netloc follows a leading `//` and runs until the first `/`, `?` or
`#`; mismatched square brackets in the netloc raise `ValueError`
(modelled as `none`). -/

def isSchemeChar (c : Char) : Bool :=
  c.isAlpha || c.isDigit || c == '+' || c == '-' || c == '.'

def urlsplit_scheme_netloc (url : String) : Option (String × String) :=
  let cs := url.data
  let schemeRest : String × List Char :=
    match splitAtFirst ':' cs with
    | some p =>
      if (match p.1 with
          | [] => false
          | c :: _ => c.isAlpha) && p.1.all isSchemeChar then
        (String.mk (p.1.map Char.toLower), p.2)
      else ("", cs)
    | none => ("", cs)
  match schemeRest.2 with
  | '/' :: '/' :: r =>
    let netloc := r.takeWhile (fun c => !(c == '/' || c == '?' || c == '#'))
    if (netloc.contains '[' && !netloc.contains ']')
        || (netloc.contains ']' && !netloc.contains '[') then
      none
    else
      some (schemeRest.1, String.mk netloc)
  | _ => some (schemeRest.1, "")

/-! ## URL resolver (`AbstractAPIClient.parse_api_host_arg`) -/

/-- Embeds the inner `append_default_port` of `parse_api_host_arg` for a
declared (truthy) default port.  Python raises `IndexError` on
`arg[0]` for an empty `arg` and on `parts[0][-1]` when the part before
the last colon is empty; both are modelled as `none`. -/
def append_default_port (port : String) (arg : String) : Option String :=
  let parts := rpartition arg ':'
  match arg.data with
  | [] => none
  | c :: _ =>
    if c = '[' then
      match parts.1.data.getLast? with
      | none => none
      | some d =>
        if d = ']' then some (arg ++ ":" ++ port)
        else some arg
    else if parts.2.1 ≠ "" then some arg
    else some (arg ++ ":" ++ port)

/-- The `if not cls.DEFAULT_API_PORT` dispatch of `parse_api_host_arg`:
a falsy declared port (`None` or empty) makes `append_default_port` the
identity. -/
def maybe_append_default_port (defaultPort : Option String) (arg : String) :
    Option String :=
  match defaultPort with
  | none => some arg
  | some port => if port = "" then some arg else append_default_port port arg

/-- Embeds `AbstractAPIClient.parse_api_host_arg`, with the class
constants `DEFAULT_API_PORT`, `DEFAULT_API_PROTOCOL` and
`DEFAULT_API_BASEPATH` passed explicitly (subclasses may override them).
Returns `(base_url, real_host)`, or `none` when the Python code raises. -/
def parse_api_host_arg (defaultPort : Option String) (defaultProto : String)
    (defaultBasepath : Option String) (host : String)
    (real_host : Option String) : Option (String × String) :=
  match urlsplit_scheme_netloc host with
  | none => none
  | some parts =>
    let step :=
      if parts.1 ≠ "" ∧ parts.2 ≠ "" then
        some (host, (rpartition parts.2 '@').2.2)
      else
        match maybe_append_default_port defaultPort host with
        | none => none
        | some parsed_host =>
          some (defaultProto ++ "://" ++ parsed_host ++ "/"
                  ++ lstripSlash (defaultBasepath.getD ""),
                parsed_host)
    match step with
    | none => none
    | some r =>
      match real_host with
      | none => some r
      | some rh =>
        if rh = "" then some r
        else
          match maybe_append_default_port defaultPort rh with
          | none => none
          | some prh => some (r.1, prh)

/-- Base-class value of `DEFAULT_API_PROTOCOL`. -/
def DEFAULT_API_PROTOCOL : String := "https"

/-- Base-class value of `DEFAULT_API_PORT` (`None`). -/
def DEFAULT_API_PORT : Option String := none

/-- Base-class value of `DEFAULT_API_BASEPATH` (`None`). -/
def DEFAULT_API_BASEPATH : Option String := none

/-! ## Error taxonomy (`exc.py`) -/

/-- Python truthiness test for an optional string (`None` and `""` are
falsy). -/
def strOptTruthy : Option String → Bool
  | none => false
  | some s => s ≠ ""

/-- Python `a or b` on optional strings. -/
def pyOrStr (a b : Option String) : Option String :=
  if strOptTruthy a then a else b

/-- Embeds `exc.APICallException`: `status_code` and `response_text` are
stored as given; the exception argument passed to `Exception.__init__`
is `message or response_text`. -/
structure APICallException where
  status_code : Option Nat
  response_text : Option String
  exc_args : Option String
  deriving DecidableEq

/-- Embeds `APICallException.__init__(status_code, response_text,
message)`. -/
def APICallException.make (status_code : Option Nat)
    (response_text : Option String) (message : Option String) :
    APICallException :=
  { status_code := status_code
    response_text := response_text
    exc_args := pyOrStr message response_text }

/-! ## Response classification (`AbstractAPIClient.process_response`) -/

/-- An HTTP response as observed by `process_response`: only
`status_code` and `text` are consulted. -/
structure HttpResponse where
  status_code : Nat
  text : String
  deriving DecidableEq

/-- `AbstractAPIClient.HTTP_STATUS_CODES_SUCCESS`. -/
def HTTP_STATUS_CODES_SUCCESS : List Nat :=
  [200, 201, 202, 203, 204, 205, 206, 207]

/-- Default `AbstractAPIClient.render_response_error`: returns the text
unchanged. -/
def render_response_error_default (text : String) : String := text

/-- Embeds `AbstractAPIClient.process_response`.  The pluggable
body-conversion step (`convert_response_text`, abstract in the base
class; `json.loads` in `APIClient`) and the overridable error renderer
are parameters.  A raised `APICallException` becomes `Except.error`. -/
def process_response {β : Type} (convert_response_text : String → β)
    (render_response_error : String → String) (response : HttpResponse)
    (errors_ok : Bool) : Except APICallException (Bool × Option β) :=
  if response.status_code ∈ HTTP_STATUS_CODES_SUCCESS then
    Except.ok (true, some (convert_response_text response.text))
  else if errors_ok then
    Except.ok (false, none)
  else
    Except.error
      (APICallException.make (some response.status_code)
        (some response.text)
        (some (render_response_error response.text)))

/-! ## Client data model -/

/-- `verify_cert`: a boolean or a CA-file path. -/
inductive VerifyCert where
  | flag (b : Bool)
  | caFile (path : String)
  deriving DecidableEq

/-- A `requests.Session` object as far as the client observes it:
certificate-verification setting, header dict, and whether `close()`
has been called on it. -/
structure Session where
  verify : VerifyCert
  headers : List (String × String)
  closed : Bool
  deriving DecidableEq

/-- Python exceptions that the embedded code raises or propagates.
`other` stands for an arbitrary exception raised by an abstract step
(`login`, `logout`, a header/setup step). -/
inductive PyErr where
  | keyError (key : String)
  | assertionError (msg : String)
  | apiCallError (e : APICallException)
  | other (code : Nat)
  deriving DecidableEq

/-- The client object: the `__slots__` of `AbstractAPIClient`
(`base_url`, `real_host`, `verify_cert`, `headers`) plus the
`_session` slot of `APIClient`.  `closedSessions` is ghost instrumentation: every session
object whose `close()` ran is appended there, so that resource-release
claims are observable in the pure embedding. -/
structure Client where
  base_url : String
  real_host : String
  verify_cert : VerifyCert
  headers : List (String × String)
  _session : Option Session
  closedSessions : List Session
  deriving DecidableEq

/-! ## Python dict operations on association lists -/

def dictHasKey (m : List (String × String)) (k : String) : Bool :=
  m.any (fun p => p.1 == k)

/-- `m[k] = v`: overwrite in place if the key exists, else append. -/
def dictSet (m : List (String × String)) (k v : String) :
    List (String × String) :=
  if dictHasKey m k then
    m.map (fun p => if p.1 == k then (k, v) else p)
  else m ++ [(k, v)]

/-- `del m[k]`: `none` models the `KeyError` raised for an absent key. -/
def dictDel (m : List (String × String)) (k : String) :
    Option (List (String × String)) :=
  if dictHasKey m k then some (m.filter (fun p => !(p.1 == k))) else none

/-- `m.update(other)`: set each entry of `other` in order. -/
def dictUpdate (m other : List (String × String)) :
    List (String × String) :=
  other.foldl (fun acc kv => dictSet acc kv.1 kv.2) m

/-- `session.close()`. -/
def Session.close (s : Session) : Session := { s with closed := true }

/-- Value domain of `APIClient.DEFAULT_ACCEPT_CONTENT_TYPE`: the code
distinguishes `is True`, other truthy values (a string), and falsy
values. -/
inductive AcceptCfg where
  | isTrue
  | falsy
  | str (v : String)
  deriving DecidableEq

namespace AbstractAPIClient

/-- `AbstractAPIClient.add_header`. -/
def add_header (c : Client) (name value : String) : Client :=
  { c with headers := dictSet c.headers name value }

/-- `AbstractAPIClient.unset_header`: delete `name` from the default
headers; an absent name raises `KeyError` unless `ignore_missing`. -/
def unset_header (c : Client) (name : String) (ignore_missing : Bool) :
    Except PyErr Client :=
  match dictDel c.headers name with
  | some m => Except.ok { c with headers := m }
  | none =>
    if ignore_missing then Except.ok c
    else Except.error (PyErr.keyError name)

/-- `AbstractAPIClient.join_url`: `none` embeds the default
`endpoint=None`; a falsy endpoint returns `base_url` unchanged. -/
def join_url (c : Client) (endpoint : Option String) : String :=
  match endpoint with
  | none => c.base_url
  | some e =>
    if e = "" then c.base_url
    else c.base_url ++ "/" ++ lstripSlash e

/-- Embeds `AbstractAPIClient.__enter__` over the abstract operations.
An operation returns the client state at its end (at raise time, for a
raising operation) together with the raised exception, if any.
If `open_connection` raises, the error propagates directly; if `login`
raises after a successful open, `close_connection` runs first and the
original error is re-raised. -/
def enter (open_conn login : Client → Client × Option PyErr)
    (close_conn : Client → Client) (c : Client) :
    Client × Option PyErr :=
  match open_conn c with
  | (c1, some e) => (c1, some e)
  | (c1, none) =>
    match login c1 with
    | (c2, some e) => (close_conn c2, some e)
    | (c2, none) => (c2, none)

/-- Embeds `AbstractAPIClient.__exit__`: `try: logout() finally:
close_connection()`. -/
def scope_exit (logout : Client → Client × Option PyErr)
    (close_conn : Client → Client) (c : Client) :
    Client × Option PyErr :=
  match logout c with
  | (c1, some e) => (close_conn c1, some e)
  | (c1, none) => (close_conn c1, none)

end AbstractAPIClient

namespace APIClient

/-- `APIClient.DEFAULT_CONTENT_TYPE`. -/
def DEFAULT_CONTENT_TYPE : String := "application/json"

/-- `APIClient.DEFAULT_ACCEPT_CONTENT_TYPE` (`True`). -/
def DEFAULT_ACCEPT_CONTENT_TYPE : AcceptCfg := AcceptCfg.isTrue

/-- A freshly constructed `requests.Session()` as the client observes
it (default headers of the requests library elided: no claim inspects
them). -/
def requests_Session : Session :=
  { verify := VerifyCert.flag true, headers := [], closed := false }

/-- The `APIClient.session` property: raises `AssertionError` while the
session reference is null. -/
def session (c : Client) : Except PyErr Session :=
  match c._session with
  | none => Except.error (PyErr.assertionError "no active session found")
  | some s => Except.ok s

/-- The body of the `try` block in `APIClient.open_connection`:
the header/setup assignments performed on the fresh session, in source
order. -/
def setup_session (c : Client) (session : Session) : Session :=
  let session := { session with verify := c.verify_cert }
  let session :=
    { session with headers := dictSet session.headers "Host" c.real_host }
  let content_type := DEFAULT_CONTENT_TYPE
  let session :=
    if content_type ≠ "" then
      { session with
          headers := dictSet session.headers "Content-Type" content_type }
    else session
  let session :=
    match DEFAULT_ACCEPT_CONTENT_TYPE with
    | AcceptCfg.isTrue =>
      { session with
          headers := dictSet session.headers "Accept"
            (if content_type ≠ "" then content_type else "*/*") }
    | AcceptCfg.falsy => session
    | AcceptCfg.str v =>
      if v ≠ "" then
        { session with headers := dictSet session.headers "Accept" v }
      else session
  { session with headers := dictUpdate session.headers c.headers }

/-- `APIClient.open_connection` with the `try` body abstracted: `setup`
receives the fresh session and either finishes it or raises at some
intermediate session state.  On an exception the half-initialized
session is closed and discarded, `_session` is never assigned, and the
error propagates; on success `_session` is assigned. -/
def open_connection_with
    (setup : Session → Except (PyErr × Session) Session) (c : Client) :
    Client × Option PyErr :=
  match setup requests_Session with
  | Except.error es =>
    ({ c with closedSessions := c.closedSessions ++ [es.2.close] },
     some es.1)
  | Except.ok s => ({ c with _session := some s }, none)

/-- `APIClient.open_connection` proper: the concrete setup steps never
raise in the pure embedding. -/
def open_connection (c : Client) : Client × Option PyErr :=
  open_connection_with (fun s => Except.ok (setup_session c s)) c

/-- `APIClient.close_connection`: close and clear the session if one is
present; a no-op on an already-closed client. -/
def close_connection (c : Client) : Client :=
  match c._session with
  | none => c
  | some s =>
    { c with
        _session := none
        closedSessions := c.closedSessions ++ [s.close] }

/-- The `APIClient` constructor: `AbstractAPIClient.__init__` resolves
the host via `parse_api_host_arg` (with the class constants of this
hierarchy), stores the results and an empty header dict, and
`APIClient.__init__` sets `_session = None`. -/
def mkClient (host : String) (real_host : Option String)
    (verify_cert : VerifyCert) : Option Client :=
  (parse_api_host_arg DEFAULT_API_PORT DEFAULT_API_PROTOCOL
      DEFAULT_API_BASEPATH host real_host).map
    (fun p =>
      { base_url := p.1
        real_host := p.2
        verify_cert := verify_cert
        headers := []
        _session := none
        closedSessions := [] })

end APIClient

/-! ## Abstract lifecycle state machine (spec section 4.3)

Used to state the session invariant: the spec-level states
Closed/Open/Authenticated against the concrete `_session` reference. -/

inductive AbsState where
  | Closed
  | Open
  | Authed
  deriving DecidableEq

inductive LifeOp where
  | doOpen
  | doLogin
  | doLogout
  | doClose
  deriving DecidableEq

/-- Spec-level transition.  The defined transitions are Closed-open->
Open, Open-login->Authed, Authed-logout->Open, any-close->Closed;
transitions the contract leaves undefined keep the state. -/
def stepAbs : AbsState → LifeOp → AbsState
  | _, LifeOp.doClose => AbsState.Closed
  | AbsState.Closed, LifeOp.doOpen => AbsState.Open
  | AbsState.Open, LifeOp.doLogin => AbsState.Authed
  | AbsState.Authed, LifeOp.doLogout => AbsState.Open
  | s, _ => s

/-- Concrete transition of the session-backed client, with the abstract
authentication steps `lf` (login) and `lg` (logout) as parameters. -/
def stepConc (lf lg : Client → Client) (c : Client) : LifeOp → Client
  | LifeOp.doOpen => (APIClient.open_connection c).1
  | LifeOp.doLogin => lf c
  | LifeOp.doLogout => lg c
  | LifeOp.doClose => APIClient.close_connection c

def runConc (lf lg : Client → Client) (c : Client) (ops : List LifeOp) :
    Client :=
  ops.foldl (stepConc lf lg) c

def runAbs (st : AbsState) (ops : List LifeOp) : AbsState :=
  ops.foldl stepAbs st

/-! ## Concrete instances used by witnesses -/

/-- A freshly constructed, closed client with no default headers. -/
def sampleClient : Client :=
  { base_url := "https://example.com/"
    real_host := "example.com"
    verify_cert := VerifyCert.flag true
    headers := []
    _session := none
    closedSessions := [] }

/-- A closed client holding one default header. -/
def sampleHeaderClient : Client :=
  { sampleClient with headers := [("A", "B")] }

/-- A `login` override that raises unconditionally. -/
def failLoginStep : Client → Client × Option PyErr :=
  fun c => (c, some (PyErr.other 7))

/-- A header/setup step that raises on the fresh session. -/
def failSetupStep : Session → Except (PyErr × Session) Session :=
  fun s => Except.error (PyErr.other 3, s)

/-! # Theorems -/

/-- `close_connection` always leaves the session reference null. -/
theorem close_connection_session_none (c : Client) :
    (APIClient.close_connection c)._session = none := by
  cases h : c._session with
  | none => simp [APIClient.close_connection, h]
  | some s => simp [APIClient.close_connection, h]

/-- Claim C1: a status code in the fixed success set yields
`(true, decodedBody)` with the decoded body produced by the pluggable
conversion step; any other code raises `APICallException` carrying the
status code and raw body, unless `errors_ok` was passed, in which case
`(false, none)` is returned. -/
theorem c1_process_response_classification {β : Type}
    (convert : String → β) (render : String → String)
    (response : HttpResponse) (errors_ok : Bool) :
    (response.status_code ∈ HTTP_STATUS_CODES_SUCCESS →
      process_response convert render response errors_ok
        = Except.ok (true, some (convert response.text)))
    ∧ (response.status_code ∉ HTTP_STATUS_CODES_SUCCESS → errors_ok = false →
        process_response convert render response errors_ok
          = Except.error
              (APICallException.make (some response.status_code)
                (some response.text) (some (render response.text)))
        ∧ (APICallException.make (some response.status_code)
              (some response.text)
              (some (render response.text))).status_code
            = some response.status_code
        ∧ (APICallException.make (some response.status_code)
              (some response.text)
              (some (render response.text))).response_text
            = some response.text)
    ∧ (response.status_code ∉ HTTP_STATUS_CODES_SUCCESS → errors_ok = true →
        process_response convert render response errors_ok
          = Except.ok (false, none)) := by
  refine ⟨fun h => ?_, fun h hok => ⟨?_, rfl, rfl⟩, fun h hok => ?_⟩
  · simp [process_response, h]
  · simp [process_response, h, hok]
  · simp [process_response, h, hok]

/-- Witness for C1 at concrete responses (codes 200, 404, 500). -/
theorem c1_witness :
    process_response (fun t => t) (fun t => t)
        (HttpResponse.mk 200 "ok") false
      = Except.ok (true, some "ok")
    ∧ process_response (fun t => t) (fun t => t)
        (HttpResponse.mk 404 "nope") false
      = Except.error
          (APICallException.make (some 404) (some "nope") (some "nope"))
    ∧ process_response (fun t => t) (fun t => t)
        (HttpResponse.mk 500 "boom") true
      = Except.ok (false, none) :=
  ⟨(c1_process_response_classification (fun t => t) (fun t => t)
      (HttpResponse.mk 200 "ok") false).1 (by decide),
   ((c1_process_response_classification (fun t => t) (fun t => t)
      (HttpResponse.mk 404 "nope") false).2.1 (by decide) rfl).1,
   (c1_process_response_classification (fun t => t) (fun t => t)
      (HttpResponse.mk 500 "boom") true).2.2 (by decide) rfl⟩

/-- Claim C2 (actual code behavior): with declared default port 8443 the
resolver leaves the bracketed host without port unchanged and appends a
duplicate port to a bracketed host that already carries one; the real
host for input consisting of brackets around colons therefore lacks the
default port.  This contradicts the claim, which expects the port to be
appended exactly when absent. -/
theorem c2_bracketed_port_code_behavior :
    append_default_port "8443" "[::1]" = some "[::1]"
    ∧ append_default_port "8443" "[::1]:8443" = some "[::1]:8443:8443"
    ∧ parse_api_host_arg (some "8443") "https" none "[::1]" none
        = some ("https://[::1]/", "[::1]") :=
  ⟨rfl, rfl, rfl⟩

/-- Claim C5 (actual code behavior): an empty host is not rejected.
Without a declared default port, resolution silently returns the
malformed base URL made of the scheme and empty host; with a declared
default port, the code raises `IndexError` (modelled `none`), not a
configuration error. -/
theorem c5_empty_host_code_behavior :
    parse_api_host_arg none "https" none "" none = some ("https:///", "")
    ∧ parse_api_host_arg (some "443") "https" none "" none = none :=
  ⟨rfl, rfl⟩

/-- Claim C7 counterexample: with host string consisting of a plain name
and declared default port 443, the computed base URL carries the
appended port and therefore differs from the base URL the claim
states. -/
theorem c7_counterexample :
    parse_api_host_arg (some "443") "https" none "example.com" none
      = some ("https://example.com:443/", "example.com:443")
    ∧ "https://example.com:443/" ≠ "https://example.com/" :=
  ⟨rfl, by decide⟩

/-- Claim C7 as amended: resolving the plain host with declared default
port 443 and no scheme yields the base URL with the default port
appended to the host. -/
theorem c7_amended_scenario :
    (parse_api_host_arg (some "443") "https" none "example.com" none).map
        Prod.fst
      = some "https://example.com:443/" :=
  rfl

/-- `__enter__` when the open step raises: the error propagates and the
cleanup branch is not taken. -/
theorem enter_open_fail
    (oc login : Client → Client × Option PyErr)
    (cc : Client → Client) (c c1 : Client) (e : PyErr)
    (h : oc c = (c1, some e)) :
    AbstractAPIClient.enter oc login cc c = (c1, some e) := by
  unfold AbstractAPIClient.enter
  rw [h]

/-- `__enter__` when the open step succeeds and `login` raises: the
close step runs on the state at raise time and the original error
propagates. -/
theorem enter_login_fail
    (oc login : Client → Client × Option PyErr)
    (cc : Client → Client) (c c1 c2 : Client) (e : PyErr)
    (h1 : oc c = (c1, none)) (h2 : login c1 = (c2, some e)) :
    AbstractAPIClient.enter oc login cc c = (cc c2, some e) := by
  unfold AbstractAPIClient.enter
  rw [h1]
  show (match login c1 with
        | (c2, some e) => (cc c2, some e)
        | (c2, none) => (c2, none)) = (cc c2, some e)
  rw [h2]

/-- `__enter__` when both steps succeed. -/
theorem enter_ok
    (oc login : Client → Client × Option PyErr)
    (cc : Client → Client) (c c1 c2 : Client)
    (h1 : oc c = (c1, none)) (h2 : login c1 = (c2, none)) :
    AbstractAPIClient.enter oc login cc c = (c2, none) := by
  unfold AbstractAPIClient.enter
  rw [h1]
  show (match login c1 with
        | (c2, some e) => (cc c2, some e)
        | (c2, none) => (c2, none)) = (c2, none)
  rw [h2]

/-- Claim C3: if `login` raises after a successful `open_connection`,
`__enter__` runs `close_connection` before re-raising the original
error unchanged, and in general every failing acquire of a closed
client (open step raising included, for an arbitrary setup) ends with a
null session reference. -/
theorem c3_enter_login_failure_closes
    (login : Client → Client × Option PyErr) (c c2 : Client) (e : PyErr)
    (hopen : (APIClient.open_connection c).2 = none)
    (hlogin : login (APIClient.open_connection c).1 = (c2, some e)) :
    (AbstractAPIClient.enter APIClient.open_connection login
        APIClient.close_connection c
      = (APIClient.close_connection c2, some e)
      ∧ (APIClient.close_connection c2)._session = none)
    ∧ (∀ (setup : Session → Except (PyErr × Session) Session)
         (lg : Client → Client × Option PyErr) (c0 c' : Client)
         (e' : PyErr),
         c0._session = none →
         AbstractAPIClient.enter (APIClient.open_connection_with setup)
             lg APIClient.close_connection c0
           = (c', some e') →
         c'._session = none) := by
  constructor
  · exact ⟨enter_login_fail APIClient.open_connection login
      APIClient.close_connection c (APIClient.open_connection c).1 c2 e
      rfl hlogin,
     close_connection_session_none c2⟩
  · intro setup lg c0 c' e' h0 henter
    cases hoc : APIClient.open_connection_with setup c0 with
    | mk a b =>
      cases b with
      | some eo =>
        have hE := enter_open_fail (APIClient.open_connection_with setup)
          lg APIClient.close_connection c0 a eo hoc
        rw [hE] at henter
        have ha : a = c' := congrArg Prod.fst henter
        cases hsr : setup APIClient.requests_Session with
        | error es =>
          have h2 : APIClient.open_connection_with setup c0
              = ({ c0 with
                    closedSessions := c0.closedSessions ++ [es.2.close] },
                 some es.1) := by
            unfold APIClient.open_connection_with
            rw [hsr]
          rw [h2] at hoc
          have h3 : ({ c0 with
              closedSessions := c0.closedSessions ++ [es.2.close] }
                : Client) = a :=
            congrArg Prod.fst hoc
          rw [← ha, ← h3]
          exact h0
        | ok s =>
          have h2 : APIClient.open_connection_with setup c0
              = ({ c0 with _session := some s }, none) := by
            unfold APIClient.open_connection_with
            rw [hsr]
          rw [h2] at hoc
          have h3 : (none : Option PyErr) = some eo :=
            congrArg Prod.snd hoc
          simp at h3
      | none =>
        cases hlg : lg a with
        | mk a2 b2 =>
          cases b2 with
          | some e2 =>
            have hE := enter_login_fail
              (APIClient.open_connection_with setup) lg
              APIClient.close_connection c0 a a2 e2 hoc hlg
            rw [hE] at henter
            have h2 : APIClient.close_connection a2 = c' :=
              congrArg Prod.fst henter
            rw [← h2]
            exact close_connection_session_none a2
          | none =>
            have hE := enter_ok (APIClient.open_connection_with setup)
              lg APIClient.close_connection c0 a a2 hoc hlg
            rw [hE] at henter
            have h2 : (none : Option PyErr) = some e' :=
              congrArg Prod.snd henter
            simp at h2

/-- Witness for C3: a login step that raises on the sample client. -/
theorem c3_witness :
    ((AbstractAPIClient.enter APIClient.open_connection failLoginStep
        APIClient.close_connection sampleClient).1)._session = none
    ∧ (AbstractAPIClient.enter APIClient.open_connection failLoginStep
        APIClient.close_connection sampleClient).2
      = some (PyErr.other 7) := by
  have h := c3_enter_login_failure_closes failLoginStep sampleClient
    ((APIClient.open_connection sampleClient).1) (PyErr.other 7) rfl rfl
  constructor
  · rw [h.1.1]
    exact h.1.2
  · rw [h.1.1]

/-- Claim C4: `__exit__` always equals a `logout` step followed
unconditionally by `close_connection`, the logout error (if any)
propagating, and the released client always has a null session
reference. -/
theorem c4_exit_always_closes
    (logout : Client → Client × Option PyErr) (c : Client) :
    AbstractAPIClient.scope_exit logout APIClient.close_connection c
      = (APIClient.close_connection (logout c).1, (logout c).2)
    ∧ ((AbstractAPIClient.scope_exit logout
          APIClient.close_connection c).1)._session = none := by
  have h : AbstractAPIClient.scope_exit logout
      APIClient.close_connection c
      = (APIClient.close_connection (logout c).1, (logout c).2) := by
    unfold AbstractAPIClient.scope_exit
    cases hl : logout c with
    | mk c1 r =>
      cases r with
      | none => rfl
      | some e => rfl
  refine ⟨h, ?_⟩
  rw [h]
  exact close_connection_session_none (logout c).1

/-- Claim C6: if a header/setup step raises after the session object is
constructed, `open_connection` closes that session object, never
assigns the session reference (the client stays Closed), and lets the
original error propagate. -/
theorem c6_open_setup_failure_closes
    (setup : Session → Except (PyErr × Session) Session) (c : Client)
    (e : PyErr) (sAt : Session)
    (hc : c._session = none)
    (hs : setup APIClient.requests_Session = Except.error (e, sAt)) :
    APIClient.open_connection_with setup c
      = ({ c with closedSessions := c.closedSessions ++ [sAt.close] },
         some e)
    ∧ ((APIClient.open_connection_with setup c).1)._session = none
    ∧ sAt.close.closed = true := by
  have h1 : APIClient.open_connection_with setup c
      = ({ c with closedSessions := c.closedSessions ++ [sAt.close] },
         some e) := by
    unfold APIClient.open_connection_with
    rw [hs]
  refine ⟨h1, ?_, rfl⟩
  rw [h1]
  exact hc

/-- Deleting a key and then filtering for a different key is the same
as filtering the original dict: all other entries survive a delete. -/
theorem filter_key_after_del (l : List (String × String))
    (name k : String) (hk : k ≠ name) :
    (l.filter (fun p => !(p.1 == name))).filter (fun p => p.1 == k)
      = l.filter (fun p => p.1 == k) := by
  induction l with
  | nil => rfl
  | cons hd tl ih =>
    by_cases h1 : hd.1 = name
    · have hbk : (hd.1 == k) = false := by
        have h2 : hd.1 ≠ k := by
          rw [h1]
          exact Ne.symm hk
        exact beq_false_of_ne h2
      have hbn : (hd.1 == name) = true := by
        rw [h1]
        exact beq_self_eq_true name
      simp [List.filter_cons, hbn, hbk, ih]
    · have hbn : (hd.1 == name) = false := beq_false_of_ne h1
      simp [List.filter_cons, hbn, ih]

/-- `dropWhile` on slashes: the input is the dropped run of slashes
followed by the remainder, and the remainder does not start with a
slash. -/
theorem slash_strip_spec (l : List Char) :
    l = List.replicate
          ((l.takeWhile (fun ch => ch == '/')).length) '/'
          ++ l.dropWhile (fun ch => ch == '/')
    ∧ (l.dropWhile (fun ch => ch == '/')).head? ≠ some '/' := by
  constructor
  · conv_lhs => rw [← List.takeWhile_append_dropWhile
      (p := fun ch => ch == '/') (l := l)]
    congr 1
    apply List.eq_replicate_of_mem
    intro b hb
    have h2 := List.mem_takeWhile_imp hb
    simpa using h2
  · induction l with
    | nil => simp
    | cons c cs ih =>
      by_cases h : c = '/'
      · simpa [List.dropWhile_cons, h] using ih
      · simp [List.dropWhile_cons, h]

/-- Witness for C6: a setup step that raises on the fresh session of
the sample client. -/
theorem c6_witness :
    APIClient.open_connection_with failSetupStep sampleClient
      = ({ sampleClient with
            closedSessions :=
              sampleClient.closedSessions
                ++ [APIClient.requests_Session.close] },
         some (PyErr.other 3))
    ∧ ((APIClient.open_connection_with failSetupStep
          sampleClient).1)._session = none := by
  have h := c6_open_setup_failure_closes failSetupStep sampleClient
    (PyErr.other 3) APIClient.requests_Session rfl rfl
  exact ⟨h.1, h.2.1⟩

/-- Claim C8: the session reference is non-null exactly in the
spec-level Open/Authenticated states, the invariant is preserved by
every lifecycle operation (for authentication steps that do not touch
the transport reference), a freshly constructed client is Closed, and
reading the `session` accessor while the reference is null raises
`AssertionError`. -/
theorem c8_session_invariant :
    (∀ c : Client, c._session = none →
        APIClient.session c
          = Except.error (PyErr.assertionError "no active session found"))
    ∧ (∀ (c : Client) (s : Session), c._session = some s →
        APIClient.session c = Except.ok s)
    ∧ (∀ (host : String) (rh : Option String) (vc : VerifyCert)
        (c : Client),
        APIClient.mkClient host rh vc = some c → c._session = none)
    ∧ (∀ (lf lg : Client → Client),
        (∀ c, (lf c)._session = c._session) →
        (∀ c, (lg c)._session = c._session) →
        ∀ (c : Client) (st : AbsState),
          (c._session.isSome = true ↔ st ≠ AbsState.Closed) →
          ∀ ops : List LifeOp,
            ((runConc lf lg c ops)._session.isSome = true
              ↔ runAbs st ops ≠ AbsState.Closed)) := by
  refine ⟨?_, ?_, ?_, ?_⟩
  · intro c h
    simp [APIClient.session, h]
  · intro c s h
    simp [APIClient.session, h]
  · intro host rh vc c h
    unfold APIClient.mkClient at h
    cases hp : parse_api_host_arg DEFAULT_API_PORT DEFAULT_API_PROTOCOL
        DEFAULT_API_BASEPATH host rh with
    | none =>
      rw [hp] at h
      simp at h
    | some p =>
      rw [hp] at h
      simp only [Option.map_some'] at h
      injection h with h2
      rw [← h2]
  · intro lf lg hlf hlg
    have hstep : ∀ (c : Client) (st : AbsState) (op : LifeOp),
        (c._session.isSome = true ↔ st ≠ AbsState.Closed) →
        ((stepConc lf lg c op)._session.isSome = true
          ↔ stepAbs st op ≠ AbsState.Closed) := by
      intro c st op hinv
      cases op with
      | doOpen =>
        have h1 : ((stepConc lf lg c LifeOp.doOpen)._session).isSome
            = true := rfl
        cases st <;> simp [h1, stepAbs]
      | doClose =>
        have h1 : (stepConc lf lg c LifeOp.doClose)._session = none :=
          close_connection_session_none c
        simp [h1, stepAbs]
      | doLogin =>
        have h1 : (stepConc lf lg c LifeOp.doLogin)._session
            = c._session := hlf c
        cases st <;> simpa [h1, stepAbs] using hinv
      | doLogout =>
        have h1 : (stepConc lf lg c LifeOp.doLogout)._session
            = c._session := hlg c
        cases st <;> simpa [h1, stepAbs] using hinv
    intro c st hinv ops
    induction ops generalizing c st with
    | nil => simpa [runConc, runAbs] using hinv
    | cons op ops ih =>
      have h1 : runConc lf lg c (op :: ops)
          = runConc lf lg (stepConc lf lg c op) ops := rfl
      have h2 : runAbs st (op :: ops) = runAbs (stepAbs st op) ops := rfl
      rw [h1, h2]
      exact ih (stepConc lf lg c op) (stepAbs st op) (hstep c st op hinv)

/-- Witness for C8: the accessor raises on the closed sample client,
and the invariant holds along a concrete open-login-close run. -/
theorem c8_witness :
    APIClient.session sampleClient
      = Except.error (PyErr.assertionError "no active session found")
    ∧ ((runConc id id sampleClient
          [LifeOp.doOpen, LifeOp.doLogin, LifeOp.doClose])._session.isSome
            = true
        ↔ runAbs AbsState.Closed
            [LifeOp.doOpen, LifeOp.doLogin, LifeOp.doClose]
            ≠ AbsState.Closed) :=
  ⟨c8_session_invariant.1 sampleClient rfl,
   c8_session_invariant.2.2.2 id id (fun _ => rfl) (fun _ => rfl)
     sampleClient AbsState.Closed (by simp [sampleClient])
     [LifeOp.doOpen, LifeOp.doLogin, LifeOp.doClose]⟩

/-- Claim C9: removing a default header with `ignore_missing` (the
default) is a no-op that never raises when the name is absent; with
`ignore_missing` disabled an absent name raises `KeyError`; in every
non-raising case all header entries under other names are unchanged. -/
theorem c9_unset_header (c : Client) (name : String) :
    (dictHasKey c.headers name = false →
        AbstractAPIClient.unset_header c name true = Except.ok c
        ∧ AbstractAPIClient.unset_header c name false
            = Except.error (PyErr.keyError name))
    ∧ (∀ (b : Bool) (c' : Client),
        AbstractAPIClient.unset_header c name b = Except.ok c' →
        ∀ k, k ≠ name →
          c'.headers.filter (fun p => p.1 == k)
            = c.headers.filter (fun p => p.1 == k)) := by
  constructor
  · intro h
    have hd : dictDel c.headers name = none := by
      simp [dictDel, h]
    constructor <;> simp [AbstractAPIClient.unset_header, hd]
  · intro b c' h k hk
    unfold AbstractAPIClient.unset_header at h
    cases hd : dictDel c.headers name with
    | some m =>
      rw [hd] at h
      injection h with hc'
      unfold dictDel at hd
      by_cases hkk : dictHasKey c.headers name = true
      · rw [if_pos hkk] at hd
        injection hd with hm
        rw [← hc', ← hm]
        exact filter_key_after_del c.headers name k hk
      · rw [if_neg hkk] at hd
        simp at hd
    | none =>
      rw [hd] at h
      cases b with
      | true =>
        simp at h
        rw [← h]
      | false =>
        simp at h

/-- Witness for C9 on a client with one header: an absent name is a
no-op or a `KeyError` depending on `ignore_missing`, and deleting the
present name leaves an unrelated name unaffected. -/
theorem c9_witness :
    AbstractAPIClient.unset_header sampleHeaderClient "X" true
      = Except.ok sampleHeaderClient
    ∧ AbstractAPIClient.unset_header sampleHeaderClient "X" false
      = Except.error (PyErr.keyError "X")
    ∧ ({ sampleHeaderClient with
          headers := ([] : List (String × String)) }).headers.filter
          (fun p => p.1 == "Z")
      = sampleHeaderClient.headers.filter (fun p => p.1 == "Z") :=
  ⟨((c9_unset_header sampleHeaderClient "X").1 rfl).1,
   ((c9_unset_header sampleHeaderClient "X").1 rfl).2,
   (c9_unset_header sampleHeaderClient "A").2 true
     { sampleHeaderClient with headers := ([] : List (String × String)) }
     rfl "Z" (by decide)⟩

/-- Claim C10: joining a null or empty endpoint returns the base URL
unchanged; otherwise the result is the base URL, one slash, and the
endpoint with its leading slashes stripped (the stripped remainder does
not start with a slash and reconstitutes the endpoint together with the
stripped run). -/
theorem c10_join_url (c : Client) (e : String) :
    AbstractAPIClient.join_url c none = c.base_url
    ∧ AbstractAPIClient.join_url c (some "") = c.base_url
    ∧ (e ≠ "" →
        AbstractAPIClient.join_url c (some e)
          = c.base_url ++ "/"
              ++ String.mk (e.data.dropWhile (fun ch => ch == '/'))
        ∧ e.data
            = List.replicate
                ((e.data.takeWhile (fun ch => ch == '/')).length) '/'
                ++ e.data.dropWhile (fun ch => ch == '/')
        ∧ (e.data.dropWhile (fun ch => ch == '/')).head? ≠ some '/') := by
  refine ⟨rfl, rfl, fun he => ⟨?_, (slash_strip_spec e.data).1,
    (slash_strip_spec e.data).2⟩⟩
  simp [AbstractAPIClient.join_url, he, lstripSlash]

/-- Witness for C10 at a doubly-slashed endpoint. -/
theorem c10_witness :
    AbstractAPIClient.join_url sampleClient (some "//x")
      = sampleClient.base_url ++ "/"
          ++ String.mk
              (("//x" : String).data.dropWhile (fun ch => ch == '/'))
    ∧ (("//x" : String).data.dropWhile
          (fun ch => ch == '/')).head? ≠ some '/' :=
  ⟨((c10_join_url sampleClient "//x").2.2 (by decide)).1,
   ((c10_join_url sampleClient "//x").2.2 (by decide)).2.2⟩
